import Mathlib

/-!
Verification of the emailify repository's verification engine.

The repository has two Python implementations of the engine:
* `src/runner.py` — the "Titan" verifier (`TitanVerifier.deep_check`, the
  `/api/verify` route `start_v`, the worker loop, and the `/api/download`
  export route);
* `src/pythonrun.py` — a smaller standalone verifier (`syntax_ok`,
  `mx_lookup`, `smtp_probe`, `risk_score`, `worker`, `/verify`).

Both are embedded below as pure Lean functions.  Network effects
(DNS resolution, the SMTP session) are supplied through explicit oracle
records (`Net`, `PyNet`) describing what the network returned or which
exception was raised; everything else is translated line by line from the
source.  Addresses are modelled as `List Char` (Python strings are
sequences of characters); scores are `Int` since intermediate scores go
negative before the final clamp.
-/

namespace Emailify

/-! ## Character/string helpers mirroring Python primitives -/

/-- Characters removed by Python `str.strip()` (space, tab, newline,
carriage return, vertical tab `\x0b`, form feed `\x0c`). -/
def pyIsSpace (c : Char) : Bool :=
  c == ' ' || c == '\t' || c == '\n' || c == '\r' ||
    c == Char.ofNat 11 || c == Char.ofNat 12

/-- Python `str.strip()`: drop whitespace from both ends. -/
def pyStrip (l : List Char) : List Char :=
  ((l.dropWhile pyIsSpace).reverse.dropWhile pyIsSpace).reverse

/-- Python `str.rstrip('.')`: drop trailing dots. -/
def rstripDot (l : List Char) : List Char :=
  (l.reverse.dropWhile (· == '.')).reverse

/-- Lexicographic `≤` on character lists by code point, as Python compares
strings. -/
def charsLe : List Char → List Char → Bool
  | [], _ => true
  | _ :: _, [] => false
  | a :: as, b :: bs => decide (a < b) || (a == b && charsLe as bs)

/-! ## runner.py: reference data sets (lines 52-64 of the source) -/

def ROLE_ACCOUNTS : List String :=
  ["admin", "webmaster", "postmaster", "support", "sales", "contact", "info",
   "billing", "hr", "dev", "test", "null", "marketing", "no-reply", "noreply",
   "office", "staff", "jobs", "help", "account", "press"]

def DISPOSABLE_DOMAINS : List String :=
  ["mailinator.com", "yopmail.com", "tempmail.org", "guerrillamail.com",
   "10minutemail.com", "trashmail.com", "sharklasers.com", "getairmail.com",
   "maildrop.cc", "dispostable.com", "teleworm.us", "dayrep.com"]

def COMMON_TYPOS : List (String × String) :=
  [("gmial.com", "gmail.com"), ("gmal.com", "gmail.com"),
   ("gnail.com", "gmail.com"), ("gmai.com", "gmail.com"),
   ("hotmial.com", "hotmail.com"), ("outlok.com", "outlook.com"),
   ("yaho.com", "yahoo.com"), ("icloud.co", "icloud.com")]

def HIGH_RISK_TLDS : List String :=
  [".xyz", ".top", ".stream", ".icu", ".work", ".bid", ".date", ".win", ".loan"]

/-- The local-part character class of runner.py line 118:
`[a-zA-Z0-9.!#$%&'*+/=?^_`{|}~-]` (apostrophe, backtick and braces written
via their code points 39, 96, 123, 125). -/
def isLocalChar (c : Char) : Bool :=
  c.isAlpha || c.isDigit || c == '.' || c == '!' || c == '#' || c == '$' ||
  c == '%' || c == '&' || c == Char.ofNat 39 || c == '*' || c == '+' ||
  c == '/' || c == '=' || c == '?' || c == '^' || c == '_' ||
  c == Char.ofNat 96 || c == Char.ofNat 123 || c == '|' ||
  c == Char.ofNat 125 || c == '~' || c == '-'

/-- `re.search(r"(.)\1\1", user)`: three consecutive equal characters
(the regex `.` does not match a newline). -/
def hasTriple : List Char → Bool
  | a :: b :: c :: rest =>
      (a == b && b == c && a != '\n') || hasTriple (b :: c :: rest)
  | _ => false

/-! ## runner.py: network oracle -/

/-- Outcome of `dns.resolver.resolve(domain, 'MX', timeout=5)`
(runner.py lines 146-153).  `ans` carries the records as
(preference, exchange text) pairs; `noAnswer` stands for the
`NoAnswer`/`NXDOMAIN` exceptions; `err` for any other exception. -/
inductive MxAnswer where
  | ans (records : List (Nat × String))
  | noAnswer
  | err
deriving DecidableEq, Repr

/-- The exception raised inside the SMTP `with` block, if any:
`socket.timeout` or any other exception (whose text feeds the
"Connection Refused" reason). -/
inductive SmtpExn where
  | timeout
  | other (msg : String)
deriving DecidableEq, Repr

/-- Outcome of the SMTP session of runner.py lines 169-185, by how far the
session got before an exception was raised:
* `earlyFail`: exception before the primary `rcpt` returned
  (`smtp_code` stays `0`, no catch-all information);
* `midFail`: the primary `rcpt` returned `code`, then an exception before
  the second `rcpt` returned;
* `closeFail`: both `rcpt` calls returned, then closing the session raised;
* `clean`: the whole `with` block completed without exception.
`code` is the primary recipient's reply, `fCode` the random-address
probe's reply. -/
inductive SmtpOutcome where
  | earlyFail (e : SmtpExn)
  | midFail (code : Nat) (e : SmtpExn)
  | closeFail (code fCode : Nat) (e : SmtpExn)
  | clean (code fCode : Nat)
deriving DecidableEq, Repr

/-- What the network returned for one address.  `hasARecord` records
whether the domain has a DNS address (A) record; the source never queries
it — the field exists only so that claims about an A-record fallback can
be stated. -/
structure Net where
  mx : MxAnswer
  txtOk : Bool
  smtp : SmtpOutcome
  hasARecord : Bool
deriving DecidableEq, Repr

/-- The primary RCPT reply observed by the session, when one was observed. -/
def SmtpOutcome.primaryCode : SmtpOutcome → Option Nat
  | .earlyFail _ => none
  | .midFail c _ => some c
  | .closeFail c _ _ => some c
  | .clean c _ => some c

/-! ## runner.py: `TitanVerifier.deep_check` -/

/-- Result of `deep_check`: the 4-tuple
`(final_score, reasons, status, primary_mx)` of runner.py line 206. -/
structure DeepResult where
  score : Int
  reasons : List String
  status : String
  provider : String
deriving DecidableEq, Repr

/-- One conditional penalty step `if cond: score -= pen; reasons.append(msg)`. -/
def chk (cond : Bool) (pen : Int) (msg : String) :
    Int × List String → Int × List String :=
  fun sr => if cond then (sr.1 - pen, sr.2 ++ [msg]) else sr

/-- Typo reason of runner.py line 126. -/
def typoMsg (suggestion : String) : String :=
  "Likely Typo (Did you mean " ++ suggestion ++ "?)"

/-- High-risk TLD reason of runner.py line 130. -/
def tldMsg (tld : String) : String :=
  "High-risk TLD reputation (" ++ tld ++ ")"

/-- Python `"." + domain.split(".")[-1]`. -/
def tldOf (domain : List Char) : String :=
  "." ++ String.mk ((domain.splitOn '.').getLastD [])

/-- Groups 1-3 of `deep_check` (runner.py lines 105-141): the pure score
adjustments applied before any network work, starting from
`score = 100, reasons = []`. -/
def preScore (email user domain : List Char) : Int × List String :=
  (100, [])
  |> chk (email.length > 254) 40 "Total length exceeds RFC limit"
  |> chk (user.length > 64) 30 "Local-part length exceeds RFC limit"
  |> chk (!(user ≠ [] && user.all isLocalChar)) 50 "Illegal characters in local-part"
  |> chk (DISPOSABLE_DOMAINS.contains (String.mk domain)) 90 "Known Disposable Provider"
  |> chk (COMMON_TYPOS.any (fun p => p.1 == String.mk domain)) 80
      (typoMsg (((COMMON_TYPOS.find? (fun p => p.1 == String.mk domain)).map Prod.snd).getD ""))
  |> chk (HIGH_RISK_TLDS.contains (tldOf domain)) 15 (tldMsg (tldOf domain))
  |> chk (ROLE_ACCOUNTS.contains (String.mk (user.map Char.toLower))) 20
      "Role-based/Departmental account"
  |> chk (user.countP (fun c => c.isDigit) > 4) 25
      "High numerical density (Potential Bot)"
  |> chk (hasTriple user) 10 "Triple character repetition"

/-- Ordering used by Python's `sorted` on `(preference, exchange)` pairs:
ascending preference, ties broken by the exchange string. -/
def mxLe (p q : Nat × List Char) : Prop :=
  p.1 < q.1 ∨ (p.1 = q.1 ∧ charsLe p.2 q.2 = true)

instance : DecidableRel mxLe := fun p q => by
  unfold mxLe; infer_instance

/-- The list comprehension of runner.py line 147:
`[(r.preference, r.exchange.to_text().rstrip('.')) for r in mx_records]`. -/
def cleanMx (recs : List (Nat × String)) : List (Nat × List Char) :=
  recs.map (fun r => (r.1, rstripDot r.2.data))

/-- runner.py lines 147-148: sort the cleaned records as tuples, then keep
the exchange names. -/
def resolveMx (recs : List (Nat × String)) : List (List Char) :=
  (List.insertionSort mxLe (cleanMx recs)).map (fun p => p.2)

/-- Penalty applied by the SMTP exception handlers (runner.py lines 182-185). -/
def smtpPenalty : SmtpExn → Int
  | .timeout => 30
  | .other _ => 40

/-- Reason appended by the SMTP exception handlers. -/
def smtpReason : SmtpExn → String
  | .timeout => "SMTP Server Timeout"
  | .other msg => "Connection Refused: " ++ msg.take 30

/-- Catch-all penalty, clamp, status thresholds and the default reason
(runner.py lines 195-206). -/
def finalize (score : Int) (reasons : List String) (is_catchall : Bool)
    (primary_mx : String) : DeepResult :=
  let score := if is_catchall then score - 40 else score
  let reasons :=
    if is_catchall then reasons ++ ["Catch-all Domain (Accepts everything)"]
    else reasons
  let final_score := max 0 (min 100 score)
  let status := "VALID"
  let status := if final_score < 75 then "RISKY" else status
  let status := if final_score < 30 then "INVALID" else status
  let reasons := if reasons.isEmpty then ["Passed all intelligence checks"] else reasons
  ⟨final_score, reasons, status, primary_mx⟩

/-- The "Final Evaluation" block of runner.py lines 187-206, given the
observed `smtp_code`, the catch-all flag, and the accumulated score and
reasons. -/
def finalEval (smtp_code : Nat) (is_catchall : Bool) (score : Int)
    (reasons : List String) (primary_mx : String) : DeepResult :=
  if smtp_code == 250 then
    finalize (score + 20) reasons is_catchall primary_mx
  else if smtp_code == 550 then
    ⟨0, ["User does not exist (Bounced)"], "INVALID", primary_mx⟩
  else if smtp_code == 450 || smtp_code == 451 then
    finalize (score - 20) (reasons ++ ["Server Greylisting Active"])
      is_catchall primary_mx
  else
    finalize score reasons is_catchall primary_mx

/-- The TXT/SPF adjustment of runner.py lines 156-161: `+5` on success,
`-5` on any exception. -/
def txtScore (net : Net) (score : Int) : Int :=
  if net.txtOk then score + 5 else score - 5

/-- The reason appended by the TXT/SPF adjustment on failure. -/
def txtReasons (net : Net) (reasons : List String) : List String :=
  if net.txtOk then reasons else reasons ++ ["Missing SPF/Security records"]

/-- runner.py lines 156-206: TXT probe, SMTP state machine and final
evaluation, given the score/reasons accumulated so far and the resolved
mail hosts. -/
def afterDns (net : Net) (score : Int) (reasons : List String)
    (mxs : List (List Char)) : DeepResult :=
  let score := txtScore net score
  let reasons := txtReasons net reasons
  let primary_mx := match mxs.head? with
    | some m => String.mk m
    | none => "N/A"
  let t : Nat × Bool × Int × List String :=
    if mxs.isEmpty then (0, false, score, reasons)
    else match net.smtp with
      | .earlyFail e => (0, false, score - smtpPenalty e, reasons ++ [smtpReason e])
      | .midFail c e => (c, false, score - smtpPenalty e, reasons ++ [smtpReason e])
      | .closeFail c f e =>
          (c, f == 250, score - smtpPenalty e, reasons ++ [smtpReason e])
      | .clean c f => (c, f == 250, score, reasons)
  finalEval t.1 t.2.1 t.2.2.1 t.2.2.2 primary_mx

/-- `user = parts[0].strip()` of runner.py line 114. -/
def userOf (email : List Char) : List Char :=
  pyStrip ((email.splitOn '@').headD [])

/-- `domain = parts[1].strip()` of runner.py line 114. -/
def domainOf (email : List Char) : List Char :=
  pyStrip (((email.splitOn '@').drop 1).headD [])

/-- `TitanVerifier.deep_check` (runner.py lines 102-206) with the network
supplied by `net`. -/
def deep_check (email : List Char) (net : Net) : DeepResult :=
  if email.isEmpty || !(email.contains '@') then
    ⟨0, ["Malformed Address"], "INVALID", "N/A"⟩
  else
    let parts := email.splitOn '@'
    if parts.length ≠ 2 then ⟨0, ["Multiple @ symbols"], "INVALID", "N/A"⟩
    else
      let user := userOf email
      let domain := domainOf email
      let sr := preScore email user domain
      match net.mx with
      | .noAnswer =>
          ⟨0, ["Domain does not exist or has no MX records"], "INVALID", "N/A"⟩
      | .ans recs => afterDns net (sr.1 + 10) sr.2 (resolveMx recs)
      | .err =>
          afterDns net (sr.1 - 20) (sr.2 ++ ["DNS Resolution Timeout/Error"]) []

/-! ## runner.py: batch submission and workers -/

/-- One verdict row appended to `RESULTS` by `verification_worker`
(runner.py lines 700-709), restricted to the fields the claims speak
about. -/
structure RVerdict where
  email : List Char
  result : DeepResult
deriving DecidableEq, Repr

/-- The enqueue step of `start_v` (runner.py line 781):
`list(set([e.strip() for e in data['emails'] if e.strip()]))`.
Python's `set` dedups in unspecified order; `List.dedup` (keep first
occurrence) is the canonical representative — the claims settled against
it only concern counts and membership, which are order-independent. -/
def runnerEnqueue (emails : List (List Char)) : List (List Char) :=
  ((emails.map pyStrip).filter (fun e => !e.isEmpty)).dedup

/-- One full verification run of runner.py: each enqueued address is taken
by exactly one worker, which calls `deep_check` and appends exactly one
result (runner.py lines 692-721 sequentialised; the workers' concurrency
only permutes completion order, which the claims do not depend on). -/
def runnerRun (emails : List (List Char)) (net : List Char → Net) :
    List RVerdict :=
  (runnerEnqueue emails).map (fun e => ⟨e, deep_check e (net e)⟩)

/-! ## runner.py: `/api/download/<status>` export -/

/-- A row of the `verified` table (runner.py lines 73-82, insertion by
line 715). -/
structure VerifiedRow where
  email : String
  status : String
  score : Int
  provider : String
deriving DecidableEq, Repr

/-- The `download` route (runner.py lines 837-847): write the header line
`email`, select the emails whose status matches, and write one per line. -/
def download (db : List VerifiedRow) (status : String) : List Char :=
  "email\n".data ++
    (((db.filter (fun r => r.status == status)).map
      (fun r => r.email.data ++ ['\n'])).flatten)

/-! ## pythonrun.py: core logic -/

/-- pythonrun.py role set (line 23). -/
def PY_ROLE_ACCOUNTS : List String :=
  ["admin", "info", "support", "sales", "contact", "abuse"]

/-- Local-part class `[A-Za-z0-9._%+-]` of `EMAIL_REGEX`. -/
def pyIsLocalChar (c : Char) : Bool :=
  c.isAlpha || c.isDigit || c == '.' || c == '_' || c == '%' || c == '+' || c == '-'

/-- Domain class `[A-Za-z0-9.-]` of `EMAIL_REGEX`. -/
def pyIsDomChar (c : Char) : Bool :=
  c.isAlpha || c.isDigit || c == '.' || c == '-'

/-- `EMAIL_REGEX = re.compile(r"^[A-Za-z0-9._%+-]+@[A-Za-z0-9.-]+\\.[A-Za-z]{2,}$")`
(pythonrun.py line 24).  Because the pattern is a raw string, `\\.` is the
two regex tokens `\\` (a literal backslash) and `.` (any character except
newline).  A match is a decomposition: a non-empty local part, `@`, a
non-empty domain chunk, a literal backslash at position `j`, one
non-newline character, then two or more ASCII letters; `$` also accepts a
single trailing newline.  `i` ranges over candidate positions of the `@`,
`j` over candidate positions of the backslash. -/
def regexTail (s : List Char) (j : Nat) : List Char :=
  let tail := s.drop (j + 2)
  if tail.getLast? = some '\n' then tail.dropLast else tail

def emailRegexMatch (s : List Char) : Bool :=
  decide (∃ i, i < s.length ∧ ∃ j, j < s.length ∧ i < j ∧
    (s.take i ≠ [] ∧ (s.take i).all pyIsLocalChar = true) ∧
    s.getD i ' ' = '@' ∧
    ((s.drop (i + 1)).take (j - (i + 1)) ≠ [] ∧
      ((s.drop (i + 1)).take (j - (i + 1))).all pyIsDomChar = true) ∧
    s.getD j ' ' = Char.ofNat 92 ∧
    (j + 1 < s.length ∧ s.getD (j + 1) ' ' ≠ '\n') ∧
    (2 ≤ (regexTail s j).length ∧ (regexTail s j).all Char.isAlpha = true))

/-- `syntax_ok` (pythonrun.py line 101): truthiness of
`EMAIL_REGEX.match(e)`. -/
def syntaxOk (e : List Char) : Bool := emailRegexMatch e

/-- `role_check` (pythonrun.py line 103). -/
def role_check (e : List Char) : Bool :=
  PY_ROLE_ACCOUNTS.contains
    (String.mk (((e.splitOn '@').headD []).map Char.toLower))

/-- Network oracle for pythonrun.py: `mxHosts = none` means
`dns.resolver.resolve` raised (any exception), otherwise the MX exchange
texts in answer order; `smtpCode = none` means the SMTP session raised. -/
structure PyNet where
  mxHosts : Option (List String)
  smtpCode : Option Nat
deriving DecidableEq, Repr

/-- `mx_lookup` (pythonrun.py lines 105-108): the exchanges in answer
order — no sorting, no preference handling — and `[]` on any exception. -/
def mx_lookup (net : PyNet) : List String :=
  match net.mxHosts with
  | some hosts => hosts
  | none => []

/-- `smtp_probe` (pythonrun.py lines 110-117): the RCPT reply code, or `0`
on any exception. -/
def smtp_probe (net : PyNet) : Nat :=
  match net.smtpCode with
  | some c => c
  | none => 0

/-- `risk_score` (pythonrun.py lines 119-124). -/
def risk_score (code : Nat) (role : Bool) : Int :=
  let score : Int := 50
  let score := if code == 250 then score + 30 else score
  let score := if role then score - 15 else score
  let score := if code == 550 || code == 551 || code == 553 then 5 else score
  max 0 (min 100 score)

/-- The `code` column of a pythonrun verdict: the string `"SYNTAX"`, the
string `"NO_MX"`, or an SMTP reply integer. -/
inductive PyCode where
  | syntaxErr
  | noMx
  | smtp (n : Nat)
deriving DecidableEq, Repr

/-- One verdict dict built by `res(...)` (pythonrun.py line 148),
instrumented with whether the worker performed DNS and SMTP work for it. -/
structure PyVerdict where
  email : List Char
  status : String
  code : PyCode
  role : String
  risk : Int
  usedDns : Bool
  usedSmtp : Bool
deriving DecidableEq, Repr

/-- One iteration of `worker` (pythonrun.py lines 131-146) on a dequeued
address. -/
def workerStep (net : PyNet) (email : List Char) : PyVerdict :=
  if !syntaxOk email then
    ⟨email, "INVALID", .syntaxErr, "NO", 5, false, false⟩
  else
    let mxs := mx_lookup net
    if mxs.isEmpty then ⟨email, "INVALID", .noMx, "NO", 5, true, false⟩
    else
      let role := role_check email
      let code := smtp_probe net
      let risk := risk_score code role
      let status :=
        if risk > 70 then "VALID" else if risk > 20 then "RISKY" else "INVALID"
      ⟨email, status, .smtp code, if role then "YES" else "NO", risk, true, true⟩

/-- The enqueue loop of `/verify` (pythonrun.py lines 160-161):
`for e in lines: if e.strip(): queue.put(e.strip())` — no deduplication. -/
def pyEnqueue (lines : List (List Char)) : List (List Char) :=
  (lines.map pyStrip).filter (fun e => !e.isEmpty)

/-- One full `/verify` run of pythonrun.py: every enqueued line is
processed by exactly one worker iteration (the threads only permute
order). -/
def pyRun (lines : List (List Char)) (net : List Char → PyNet) :
    List PyVerdict :=
  (pyEnqueue lines).map (fun e => workerStep (net e) e)

/-! ## Observation functions used by the claims -/

/-- The score-to-disposition map the runner's final lines implement:
below 30 INVALID, below 75 RISKY, otherwise VALID. -/
def statusFromScore (s : Int) : String :=
  if s < 30 then "INVALID" else if s < 75 then "RISKY" else "VALID"

/-- The score-to-disposition map of pythonrun.py line 143:
above 70 VALID, above 20 RISKY, otherwise INVALID. -/
def pyStatusFromRisk (r : Int) : String :=
  if r > 70 then "VALID" else if r > 20 then "RISKY" else "INVALID"

/-- Well-formedness of a `deep_check` result: score clamped to [0,100],
one of the three dispositions, a non-empty reason list. -/
def DeepResult.Wf (r : DeepResult) : Prop :=
  0 ≤ r.score ∧ r.score ≤ 100 ∧
    (r.status = "VALID" ∨ r.status = "RISKY" ∨ r.status = "INVALID") ∧
    r.reasons ≠ []

/-- The catch-all reason string of runner.py line 196. -/
def catchMsg : String := "Catch-all Domain (Accepts everything)"

/-- The length-penalty reason string of runner.py line 116. -/
def lenMsg : String := "Total length exceeds RFC limit"

/-! ## Lemmas about the penalty chain `chk` -/

theorem chk_fst_le (c : Bool) (p : Int) (m : String) (x : Int × List String)
    (hp : 0 ≤ p) : (chk c p m x).1 ≤ x.1 := by
  unfold chk; split
  · show x.1 - p ≤ x.1
    omega
  · exact le_refl _

theorem mem_chk (a : String) (c : Bool) (p : Int) (m : String)
    (x : Int × List String) :
    a ∈ (chk c p m x).2 ↔ a ∈ x.2 ∨ (c = true ∧ a = m) := by
  unfold chk; split <;> simp_all

theorem preScore_fst_le (email user domain : List Char) :
    (preScore email user domain).1 ≤ 100 := by
  unfold preScore
  refine le_trans (chk_fst_le _ _ _ _ (by norm_num)) ?_
  refine le_trans (chk_fst_le _ _ _ _ (by norm_num)) ?_
  refine le_trans (chk_fst_le _ _ _ _ (by norm_num)) ?_
  refine le_trans (chk_fst_le _ _ _ _ (by norm_num)) ?_
  refine le_trans (chk_fst_le _ _ _ _ (by norm_num)) ?_
  refine le_trans (chk_fst_le _ _ _ _ (by norm_num)) ?_
  refine le_trans (chk_fst_le _ _ _ _ (by norm_num)) ?_
  refine le_trans (chk_fst_le _ _ _ _ (by norm_num)) ?_
  exact le_trans (chk_fst_le _ _ _ _ (by norm_num)) (by norm_num)

theorem lenMsg_ne_typoMsg (s : String) : lenMsg ≠ typoMsg s := by
  intro h
  have h2 : lenMsg.data.head? = (typoMsg s).data.head? := by rw [h]
  simp [lenMsg, typoMsg, String.data_append] at h2

theorem lenMsg_ne_tldMsg (s : String) : lenMsg ≠ tldMsg s := by
  intro h
  have h2 : lenMsg.data.head? = (tldMsg s).data.head? := by rw [h]
  simp [lenMsg, tldMsg, String.data_append] at h2

/-- The length-penalty reason appears in the pre-network reasons exactly
when the whole address exceeds 254 characters. -/
theorem lenMsg_mem_preScore (email user domain : List Char) :
    lenMsg ∈ (preScore email user domain).2 ↔ 254 < email.length := by
  unfold preScore
  rw [mem_chk, mem_chk, mem_chk, mem_chk, mem_chk, mem_chk, mem_chk, mem_chk,
    mem_chk]
  simp only [List.not_mem_nil, false_or]
  constructor
  · rintro ((((((((h | h) | h) | h) | h) | h) | h) | h) | h)
    · exact of_decide_eq_true h.1
    · exact absurd h.2 (by decide)
    · exact absurd h.2 (by decide)
    · exact absurd h.2 (by decide)
    · exact absurd h.2 (lenMsg_ne_typoMsg _)
    · exact absurd h.2 (lenMsg_ne_tldMsg _)
    · exact absurd h.2 (by decide)
    · exact absurd h.2 (by decide)
    · exact absurd h.2 (by decide)
  · intro h
    exact Or.inl (Or.inl (Or.inl (Or.inl (Or.inl (Or.inl (Or.inl
      (Or.inl ⟨by simpa using h, rfl⟩)))))))

/-! ## The MX ordering is total and transitive -/

theorem charsLe_total : ∀ a b : List Char, charsLe a b = true ∨ charsLe b a = true := by
  intro a
  induction a with
  | nil => intro b; left; rfl
  | cons x xs ih =>
    intro b
    cases b with
    | nil => right; rfl
    | cons y ys =>
      simp only [charsLe, Bool.or_eq_true, decide_eq_true_eq, Bool.and_eq_true,
        beq_iff_eq]
      rcases lt_trichotomy x y with h | h | h
      · exact Or.inl (Or.inl h)
      · subst h
        rcases ih ys with h2 | h2
        · exact Or.inl (Or.inr ⟨rfl, h2⟩)
        · exact Or.inr (Or.inr ⟨rfl, h2⟩)
      · exact Or.inr (Or.inl h)

theorem charsLe_trans : ∀ a b c : List Char,
    charsLe a b = true → charsLe b c = true → charsLe a c = true := by
  intro a
  induction a with
  | nil => intro b c _ _; rfl
  | cons x xs ih =>
    intro b c hab hbc
    cases b with
    | nil => simp [charsLe] at hab
    | cons y ys =>
      cases c with
      | nil => simp [charsLe] at hbc
      | cons z zs =>
        simp only [charsLe, Bool.or_eq_true, decide_eq_true_eq,
          Bool.and_eq_true, beq_iff_eq] at hab hbc ⊢
        rcases hab with h1 | ⟨he1, h1⟩
        · rcases hbc with h2 | ⟨he2, h2⟩
          · exact Or.inl (lt_trans h1 h2)
          · exact Or.inl (he2 ▸ h1)
        · rcases hbc with h2 | ⟨he2, h2⟩
          · exact Or.inl (he1 ▸ h2)
          · exact Or.inr ⟨he1.trans he2, ih ys zs h1 h2⟩

instance : IsTotal (Nat × List Char) mxLe := by
  constructor
  intro a b
  unfold mxLe
  rcases lt_trichotomy a.1 b.1 with h | h | h
  · exact Or.inl (Or.inl h)
  · rcases charsLe_total a.2 b.2 with h2 | h2
    · exact Or.inl (Or.inr ⟨h, h2⟩)
    · exact Or.inr (Or.inr ⟨h.symm, h2⟩)
  · exact Or.inr (Or.inl h)

instance : IsTrans (Nat × List Char) mxLe := by
  constructor
  intro a b c hab hbc
  unfold mxLe at *
  rcases hab with h1 | ⟨he1, h1⟩
  · rcases hbc with h2 | ⟨he2, h2⟩
    · exact Or.inl (lt_trans h1 h2)
    · exact Or.inl (he2 ▸ h1)
  · rcases hbc with h2 | ⟨he2, h2⟩
    · exact Or.inl (he1 ▸ h2)
    · exact Or.inr ⟨he1.trans he2, charsLe_trans _ _ _ h1 h2⟩

/-! ## Lemmas about `finalize`, `finalEval`, `afterDns`, `deep_check` -/

theorem wf_mk (s : Int) (r : List String) (st m : String) (h1 : 0 ≤ s)
    (h2 : s ≤ 100) (h3 : st = "VALID" ∨ st = "RISKY" ∨ st = "INVALID")
    (h4 : r ≠ []) : (DeepResult.mk s r st m).Wf := by
  unfold DeepResult.Wf
  exact ⟨h1, h2, h3, h4⟩

theorem statusFromScore_zero : statusFromScore 0 = "INVALID" := by
  norm_num [statusFromScore]

theorem finalize_wf (s : Int) (r : List String) (b : Bool) (m : String) :
    (finalize s r b m).Wf := by
  unfold finalize
  dsimp only
  apply wf_mk
  · split_ifs <;> omega
  · split_ifs <;> omega
  · split_ifs <;> simp
  · split_ifs <;> simp_all

theorem finalize_status_eq (s : Int) (r : List String) (b : Bool) (m : String) :
    (finalize s r b m).status = statusFromScore (finalize s r b m).score := by
  unfold finalize statusFromScore
  dsimp only

theorem finalEval_wf (c : Nat) (b : Bool) (s : Int) (r : List String)
    (m : String) : (finalEval c b s r m).Wf := by
  unfold finalEval
  split_ifs <;> first
    | exact finalize_wf _ _ _ _
    | exact wf_mk _ _ _ _ (by norm_num) (by norm_num) (by simp) (by simp)

theorem finalEval_status_eq (c : Nat) (b : Bool) (s : Int) (r : List String)
    (m : String) :
    (finalEval c b s r m).status = statusFromScore (finalEval c b s r m).score := by
  unfold finalEval
  split_ifs <;> first
    | exact finalize_status_eq _ _ _ _
    | exact statusFromScore_zero.symm

theorem afterDns_wf (net : Net) (s : Int) (r : List String)
    (mxs : List (List Char)) : (afterDns net s r mxs).Wf := by
  unfold afterDns
  exact finalEval_wf _ _ _ _ _

theorem afterDns_status_eq (net : Net) (s : Int) (r : List String)
    (mxs : List (List Char)) :
    (afterDns net s r mxs).status = statusFromScore (afterDns net s r mxs).score := by
  unfold afterDns
  exact finalEval_status_eq _ _ _ _ _

/-- `deep_check` always yields a clamped score, one of the three
dispositions, and at least one reason. -/
theorem deep_check_wf (email : List Char) (net : Net) :
    (deep_check email net).Wf := by
  unfold deep_check
  dsimp only
  split_ifs
  · exact wf_mk _ _ _ _ (by norm_num) (by norm_num) (by simp) (by simp)
  · exact wf_mk _ _ _ _ (by norm_num) (by norm_num) (by simp) (by simp)
  · cases net.mx with
    | ans recs => exact afterDns_wf _ _ _ _
    | noAnswer => exact wf_mk _ _ _ _ (by norm_num) (by norm_num) (by simp) (by simp)
    | err => exact afterDns_wf _ _ _ _

theorem deep_check_status_eq (email : List Char) (net : Net) :
    (deep_check email net).status = statusFromScore (deep_check email net).score := by
  unfold deep_check
  dsimp only
  split_ifs
  · exact statusFromScore_zero.symm
  · exact statusFromScore_zero.symm
  · cases net.mx with
    | ans recs => exact afterDns_status_eq _ _ _ _
    | noAnswer => exact statusFromScore_zero.symm
    | err => exact afterDns_status_eq _ _ _ _

/-! ## Unfolding lemmas for `deep_check` under explicit guards -/

theorem isEmpty_eq_false_of_contains {email : List Char}
    (h : email.contains '@' = true) : email.isEmpty = false := by
  cases email with
  | nil => simp at h
  | cons a l => rfl

theorem deep_check_mx_ans (email : List Char) (net : Net)
    (recs : List (Nat × String))
    (h1 : email.contains '@' = true)
    (h2 : (email.splitOn '@').length = 2)
    (hm : net.mx = .ans recs) :
    deep_check email net =
      afterDns net ((preScore email (userOf email) (domainOf email)).1 + 10)
        (preScore email (userOf email) (domainOf email)).2 (resolveMx recs) := by
  have hne : ¬email = [] := by
    intro he
    subst he
    simp at h1
  have hmem : '@' ∈ email := by simpa using h1
  unfold deep_check
  rw [hm]
  simp [hne, hmem, h2]

theorem deep_check_mx_noAnswer (email : List Char) (net : Net)
    (h1 : email.contains '@' = true)
    (h2 : (email.splitOn '@').length = 2)
    (hm : net.mx = .noAnswer) :
    deep_check email net =
      ⟨0, ["Domain does not exist or has no MX records"], "INVALID", "N/A"⟩ := by
  have hne : ¬email = [] := by
    intro he
    subst he
    simp at h1
  have hmem : '@' ∈ email := by simpa using h1
  unfold deep_check
  rw [hm]
  simp [hne, hmem, h2]

/-! ## Unfolding lemmas for `afterDns` with at least one mail host -/

theorem afterDns_clean (net : Net) (s : Int) (r : List String) (m : List Char)
    (rest : List (List Char)) (c f : Nat) (hs : net.smtp = .clean c f) :
    afterDns net s r (m :: rest) =
      finalEval c (f == 250) (txtScore net s) (txtReasons net r) (String.mk m) := by
  unfold afterDns
  rw [hs]
  rfl

theorem afterDns_midFail (net : Net) (s : Int) (r : List String) (m : List Char)
    (rest : List (List Char)) (c : Nat) (e : SmtpExn)
    (hs : net.smtp = .midFail c e) :
    afterDns net s r (m :: rest) =
      finalEval c false (txtScore net s - smtpPenalty e)
        (txtReasons net r ++ [smtpReason e]) (String.mk m) := by
  unfold afterDns
  rw [hs]
  rfl

theorem afterDns_closeFail (net : Net) (s : Int) (r : List String)
    (m : List Char) (rest : List (List Char)) (c f : Nat) (e : SmtpExn)
    (hs : net.smtp = .closeFail c f e) :
    afterDns net s r (m :: rest) =
      finalEval c (f == 250) (txtScore net s - smtpPenalty e)
        (txtReasons net r ++ [smtpReason e]) (String.mk m) := by
  unfold afterDns
  rw [hs]
  rfl

theorem finalEval_550 (b : Bool) (s : Int) (r : List String) (m : String) :
    finalEval 550 b s r m =
      ⟨0, ["User does not exist (Bounced)"], "INVALID", m⟩ := by
  rfl

/-! ## Catch-all comparison lemmas -/

theorem finalize_score_true (s : Int) (r : List String) (m : String) :
    (finalize s r true m).score = max 0 (min 100 (s - 40)) := rfl

theorem finalize_score_false (s : Int) (r : List String) (m : String) :
    (finalize s r false m).score = max 0 (min 100 s) := rfl

theorem finalize_catch_le (s : Int) (r1 r2 : List String) (m1 m2 : String) :
    (finalize s r1 true m1).score ≤ (finalize s r2 false m2).score := by
  rw [finalize_score_true, finalize_score_false]
  simp only [max_def, min_def]
  split_ifs <;> omega

theorem finalize_catch_lt_iff (s : Int) (r1 r2 : List String) (m1 m2 : String)
    (hs : s ≤ 135) :
    ((finalize s r1 true m1).score < (finalize s r2 false m2).score ↔
      0 < (finalize s r2 false m2).score) := by
  rw [finalize_score_true, finalize_score_false]
  simp only [max_def, min_def]
  split_ifs <;> constructor <;> intro <;> omega

theorem finalize_catch_mem (s : Int) (r : List String) (m : String) :
    catchMsg ∈ (finalize s r true m).reasons := by
  have h : (finalize s r true m).reasons =
      if (r ++ [catchMsg]).isEmpty then ["Passed all intelligence checks"]
      else r ++ [catchMsg] := rfl
  rw [h, if_neg (by simp)]
  simp

theorem finalEval_catch_pair (c : Nat) (s : Int) (r1 r2 : List String)
    (m1 m2 : String) (hs : s ≤ 115) :
    (finalEval c true s r1 m1).score ≤ (finalEval c false s r2 m2).score ∧
    ((finalEval c true s r1 m1).score < (finalEval c false s r2 m2).score ↔
      0 < (finalEval c false s r2 m2).score) ∧
    (c ≠ 550 → catchMsg ∈ (finalEval c true s r1 m1).reasons) := by
  unfold finalEval
  split_ifs with hc1 hc2 hc3
  · exact ⟨finalize_catch_le _ _ _ _ _,
      finalize_catch_lt_iff _ _ _ _ _ (by omega),
      fun _ => finalize_catch_mem _ _ _⟩
  · refine ⟨le_refl _, Iff.rfl, fun hne => absurd ?_ hne⟩
    simpa using hc2
  · exact ⟨finalize_catch_le _ _ _ _ _,
      finalize_catch_lt_iff _ _ _ _ _ (by omega),
      fun _ => finalize_catch_mem _ _ _⟩
  · exact ⟨finalize_catch_le _ _ _ _ _,
      finalize_catch_lt_iff _ _ _ _ _ (by omega),
      fun _ => finalize_catch_mem _ _ _⟩

/-! ## Miscellaneous bounds and shapes -/

theorem txtScore_le (net : Net) {s b : Int} (h : s ≤ b) :
    txtScore net s ≤ b + 5 := by
  unfold txtScore
  split_ifs <;> omega

theorem resolveMx_ne_nil (recs : List (Nat × String)) (h : recs ≠ []) :
    resolveMx recs ≠ [] := by
  intro hc
  apply h
  have hlen := congrArg List.length hc
  rw [resolveMx, List.length_map,
    (List.perm_insertionSort mxLe (cleanMx recs)).length_eq, cleanMx,
    List.length_map] at hlen
  exact List.eq_nil_of_length_eq_zero hlen

/-! ## pythonrun.py lemmas -/

/-- Any string accepted by `EMAIL_REGEX` contains a literal backslash
(code point 92). -/
theorem backslash_mem_of_emailRegexMatch {s : List Char}
    (h : emailRegexMatch s = true) : Char.ofNat 92 ∈ s := by
  unfold emailRegexMatch at h
  have h2 := of_decide_eq_true h
  obtain ⟨i, hi, j, hj, _, _, _, _, hbs, _, _⟩ := h2
  have h3 : s.getD j ' ' = s[j] := by
    rw [List.getD_eq_getElem?_getD, List.getElem?_eq_getElem hj]
    rfl
  rw [h3] at hbs
  exact hbs ▸ List.getElem_mem hj

/-- A pythonrun worker rejects any address with no backslash as a syntax
failure before doing any network work. -/
theorem workerStep_of_no_backslash (net : PyNet) (email : List Char)
    (h : Char.ofNat 92 ∉ email) :
    workerStep net email = ⟨email, "INVALID", .syntaxErr, "NO", 5, false, false⟩ := by
  unfold workerStep
  have hs : syntaxOk email = false := by
    cases hx : syntaxOk email with
    | false => rfl
    | true => exact absurd (backslash_mem_of_emailRegexMatch hx) h
  rw [hs]
  rfl

theorem workerStep_status_eq (net : PyNet) (email : List Char) :
    (workerStep net email).status = pyStatusFromRisk (workerStep net email).risk := by
  unfold workerStep
  cases h1 : syntaxOk email with
  | false => simp only [h1]; rfl
  | true =>
    simp only [h1]
    cases h2 : (mx_lookup net).isEmpty with
    | true => rfl
    | false => rfl

theorem workerStep_invalid_of_mx_none (net : PyNet) (hm : net.mxHosts = none)
    (email : List Char) : (workerStep net email).status = "INVALID" := by
  unfold workerStep mx_lookup
  rw [hm]
  cases h1 : syntaxOk email with
  | false => simp only [h1]; rfl
  | true => simp only [h1]; rfl

theorem risk_score_perm_fail (c : Nat) (role : Bool)
    (h : c = 550 ∨ c = 551 ∨ c = 553) : risk_score c role = 5 := by
  rcases h with h | h | h <;> subst h <;> cases role <;> rfl

/-! ## CSV export lemmas -/

theorem intercalate_cons_of_ne_nil (sep l : List Char) (ls : List (List Char))
    (h : ls ≠ []) :
    List.intercalate sep (l :: ls) = l ++ sep ++ List.intercalate sep ls := by
  cases ls with
  | nil => exact absurd rfl h
  | cons b t =>
    simp [List.intercalate, List.intersperse_cons_cons]

theorem flatten_map_append_nl (ls : List (List Char)) :
    (ls.map (fun l => l ++ ['\n'])).flatten =
      List.intercalate ['\n'] (ls ++ [[]]) := by
  induction ls with
  | nil => simp [List.intercalate]
  | cons a t ih =>
    rw [List.map_cons, List.flatten_cons, ih, List.cons_append,
      intercalate_cons_of_ne_nil _ _ _ (by simp)]

theorem download_eq_intercalate (db : List VerifiedRow) (status : String) :
    download db status =
      List.intercalate ['\n']
        ("email".data ::
          ((db.filter (fun r => r.status == status)).map (fun r => r.email.data)
            ++ [[]])) := by
  unfold download
  have h1 : (db.filter (fun r => r.status == status)).map
      (fun r => r.email.data ++ ['\n']) =
      ((db.filter (fun r => r.status == status)).map (fun r => r.email.data)).map
        (fun l => l ++ ['\n']) := by
    rw [List.map_map]
    rfl
  rw [h1, flatten_map_append_nl,
    intercalate_cons_of_ne_nil _ _ _ (by simp)]
  rfl

/-! ## Claim C10 -/

/-- C10: `deep_check` is total (modelled with every DNS/SMTP outcome
supplied by the oracle, since the source catches all such exceptions) and
always returns a 4-tuple whose score is an integer in [0,100], whose
status is one of VALID, RISKY, INVALID, and whose reason list is
non-empty. -/
theorem claim_C10 (email : List Char) (net : Net) :
    0 ≤ (deep_check email net).score ∧ (deep_check email net).score ≤ 100 ∧
      ((deep_check email net).status = "VALID" ∨
        (deep_check email net).status = "RISKY" ∨
        (deep_check email net).status = "INVALID") ∧
      (deep_check email net).reasons ≠ [] := by
  have h := deep_check_wf email net
  unfold DeepResult.Wf at h
  exact h

theorem claim_C10_witness :
    0 ≤ (deep_check "john@example.com".data
        ⟨.err, false, .earlyFail .timeout, false⟩).score ∧
      (deep_check "john@example.com".data
        ⟨.err, false, .earlyFail .timeout, false⟩).score ≤ 100 ∧
      ((deep_check "john@example.com".data
          ⟨.err, false, .earlyFail .timeout, false⟩).status = "VALID" ∨
        (deep_check "john@example.com".data
          ⟨.err, false, .earlyFail .timeout, false⟩).status = "RISKY" ∨
        (deep_check "john@example.com".data
          ⟨.err, false, .earlyFail .timeout, false⟩).status = "INVALID") ∧
      (deep_check "john@example.com".data
        ⟨.err, false, .earlyFail .timeout, false⟩).reasons ≠ [] :=
  claim_C10 "john@example.com".data ⟨.err, false, .earlyFail .timeout, false⟩

/-! ## Claim C3 -/

/-- C3 counterexample: an address scoring exactly 70 is classified RISKY
by runner.py (the VALID cutoff there is 75, not 70), refuting the claimed
thresholds `score ≥ 70 → VALID`. -/
theorem claim_C3_counterexample :
    (deep_check "a12345@example.com".data
        ⟨.ans [(10, "mx.example.com")], true, .clean 450 0, false⟩).score = 70 ∧
      (deep_check "a12345@example.com".data
        ⟨.ans [(10, "mx.example.com")], true, .clean 450 0, false⟩).status = "RISKY" := by
  constructor <;> decide

/-- C3 (amended): the disposition is a function of the final score, but
with runner.py cutoffs 75/30 (`statusFromScore`: below 30 INVALID, below
75 RISKY, otherwise VALID) and pythonrun.py cutoffs strictly above 70 /
strictly above 20 (`pyStatusFromRisk`). -/
theorem claim_C3 :
    (∀ (email : List Char) (net : Net),
        (deep_check email net).status =
          statusFromScore (deep_check email net).score) ∧
    (∀ (net : PyNet) (email : List Char),
        (workerStep net email).status =
          pyStatusFromRisk (workerStep net email).risk) :=
  ⟨deep_check_status_eq, workerStep_status_eq⟩

theorem claim_C3_witness :
    (deep_check "a12345@example.com".data
        ⟨.ans [(10, "mx.example.com")], true, .clean 450 0, false⟩).status =
      statusFromScore (deep_check "a12345@example.com".data
        ⟨.ans [(10, "mx.example.com")], true, .clean 450 0, false⟩).score :=
  claim_C3.1 "a12345@example.com".data
    ⟨.ans [(10, "mx.example.com")], true, .clean 450 0, false⟩

/-! ## Claim C6 -/

/-- C6: in pythonrun.py, `EMAIL_REGEX` (built from the raw string with
`\\.`) only matches strings containing a literal backslash, so every
address without one — including john@gmail.com — is emitted as INVALID
with signal SYNTAX, and no DNS or SMTP work is performed for it. -/
theorem claim_C6 (net : PyNet) (email : List Char)
    (h : Char.ofNat 92 ∉ email) :
    workerStep net email =
      ⟨email, "INVALID", .syntaxErr, "NO", 5, false, false⟩ :=
  workerStep_of_no_backslash net email h

theorem claim_C6_witness :
    Char.ofNat 92 ∉ "john@gmail.com".data ∧
      workerStep ⟨some ["mx.gmail.com"], some 250⟩ "john@gmail.com".data =
        ⟨"john@gmail.com".data, "INVALID", .syntaxErr, "NO", 5, false, false⟩ :=
  ⟨by decide, claim_C6 ⟨some ["mx.gmail.com"], some 250⟩ "john@gmail.com".data
    (by decide)⟩

/-! ## Claim C1 -/

/-- C1 counterexample: pythonrun.py does not collapse duplicates — the
same address submitted twice yields two verdicts, while the distinct
count is one. -/
theorem claim_C1_counterexample :
    (pyRun ["a@b.com".data, "a@b.com".data] (fun _ => ⟨none, none⟩)).length = 2 ∧
      (((["a@b.com".data, "a@b.com".data].map pyStrip).filter
        (fun e => !e.isEmpty)).dedup).length = 1 := by
  constructor <;> decide

/-- C1 (amended): in runner.py, duplicates are collapsed before
enqueueing, each enqueued address yields exactly one Verdict with no
duplicates and no drops, and the number of Verdicts equals the number of
distinct non-blank stripped addresses; in pythonrun.py, duplicates are
not collapsed, and the number of Verdicts equals the number of non-blank
lines counted with multiplicity. -/
theorem claim_C1 (emails lines : List (List Char)) (netR : List Char → Net)
    (netP : List Char → PyNet) :
    (runnerRun emails netR).map (fun v => v.email) = runnerEnqueue emails ∧
      (runnerEnqueue emails).Nodup ∧
      (runnerRun emails netR).length =
        ((emails.map pyStrip).filter (fun e => !e.isEmpty)).dedup.length ∧
      (pyRun lines netP).length =
        ((lines.map pyStrip).filter (fun e => !e.isEmpty)).length := by
  refine ⟨?_, ?_, ?_, ?_⟩
  · rw [runnerRun, List.map_map]
    exact List.map_id _
  · exact List.nodup_dedup _
  · simp [runnerRun, runnerEnqueue]
  · simp [pyRun, pyEnqueue]

theorem claim_C1_witness :
    (runnerRun [" a@b.com".data, "a@b.com".data, "".data]
        (fun _ => ⟨.noAnswer, true, .earlyFail .timeout, false⟩)).map
      (fun v => v.email) =
      runnerEnqueue [" a@b.com".data, "a@b.com".data, "".data] ∧
    (runnerEnqueue [" a@b.com".data, "a@b.com".data, "".data]).Nodup ∧
    (runnerRun [" a@b.com".data, "a@b.com".data, "".data]
        (fun _ => ⟨.noAnswer, true, .earlyFail .timeout, false⟩)).length =
      (([" a@b.com".data, "a@b.com".data, "".data].map pyStrip).filter
        (fun e => !e.isEmpty)).dedup.length ∧
    (pyRun ["x@y.com".data] (fun _ => ⟨none, none⟩)).length =
      ((["x@y.com".data].map pyStrip).filter (fun e => !e.isEmpty)).length :=
  claim_C1 [" a@b.com".data, "a@b.com".data, "".data] ["x@y.com".data]
    (fun _ => ⟨.noAnswer, true, .earlyFail .timeout, false⟩)
    (fun _ => ⟨none, none⟩)

/-! ## Claim C5 -/

/-- C5 counterexample: under total network failure of the timeout kind
(DNS resolution raises a non-NXDOMAIN error, SMTP never connects), a
clean address is scored 75 and dispatched VALID by runner.py — not
INVALID as the claim requires for the 100% failure worst case. -/
theorem claim_C5_counterexample :
    deep_check "john@example.com".data ⟨.err, false, .earlyFail .timeout, false⟩ =
      ⟨75, ["DNS Resolution Timeout/Error", "Missing SPF/Security records"],
        "VALID", "N/A"⟩ := by
  decide

/-- C5 (amended): every address always reaches one of the three
dispositions (the run terminates) whatever the network does, and under
total network failure pythonrun.py resolves every address to INVALID;
but runner.py only forces INVALID when the DNS failure is
NoAnswer/NXDOMAIN — its timeout/error path can still emit VALID. -/
theorem claim_C5 :
    (∀ (email : List Char) (net : Net),
        (deep_check email net).status = "VALID" ∨
        (deep_check email net).status = "RISKY" ∨
        (deep_check email net).status = "INVALID") ∧
    (∀ email : List Char, (workerStep ⟨none, none⟩ email).status = "INVALID") := by
  constructor
  · intro email net
    have h := deep_check_wf email net
    unfold DeepResult.Wf at h
    exact h.2.2.1
  · intro email
    exact workerStep_invalid_of_mx_none ⟨none, none⟩ rfl email

theorem claim_C5_witness :
    ((deep_check "john@example.com".data
        ⟨.err, false, .earlyFail .timeout, false⟩).status = "VALID" ∨
      (deep_check "john@example.com".data
        ⟨.err, false, .earlyFail .timeout, false⟩).status = "RISKY" ∨
      (deep_check "john@example.com".data
        ⟨.err, false, .earlyFail .timeout, false⟩).status = "INVALID") ∧
    (workerStep ⟨none, none⟩ "john@example.com".data).status = "INVALID" :=
  ⟨claim_C5.1 "john@example.com".data ⟨.err, false, .earlyFail .timeout, false⟩,
    claim_C5.2 "john@example.com".data⟩

/-! ## Claim C2 -/

/-- C2 counterexample: an SMTP reply of 551 — in the claimed
permanent-failure class — does not short-circuit runner.py at all: with
otherwise positive signals the address is scored 100 and dispatched
VALID. -/
theorem claim_C2_counterexample :
    deep_check "bob@example.com".data
        ⟨.ans [(10, "mx.example.com")], true, .clean 551 0, false⟩ =
      ⟨100, ["Passed all intelligence checks"], "VALID", "mx.example.com"⟩ := by
  decide

/-- C2 (amended): only reply code 550 short-circuits runner.py's
`deep_check` — to score 0, status INVALID, sole reason "User does not
exist (Bounced)" — regardless of every other signal; pythonrun.py floors
the score to 5 (hence INVALID) for codes 550, 551 and 553, while 554
receives no permanent-failure handling in either implementation
(in pythonrun it leaves the base score 50, i.e. RISKY). -/
theorem claim_C2 :
    (∀ (email : List Char) (net : Net) (recs : List (Nat × String)),
        email.contains '@' = true →
        (email.splitOn '@').length = 2 →
        net.mx = .ans recs →
        recs ≠ [] →
        net.smtp.primaryCode = some 550 →
        (deep_check email net).score = 0 ∧
          (deep_check email net).status = "INVALID" ∧
          (deep_check email net).reasons = ["User does not exist (Bounced)"]) ∧
    (∀ (c : Nat) (role : Bool), (c = 550 ∨ c = 551 ∨ c = 553) →
        risk_score c role = 5 ∧ pyStatusFromRisk (risk_score c role) = "INVALID") ∧
    (∀ role : Bool, risk_score 554 role = 50 - (if role then 15 else 0)) := by
  refine ⟨?_, ?_, ?_⟩
  · intro email net recs h1 h2 h3 h4 h5
    obtain ⟨m, rest, hr⟩ : ∃ m rest, resolveMx recs = m :: rest := by
      cases hres : resolveMx recs with
      | nil => exact absurd hres (resolveMx_ne_nil recs h4)
      | cons m rest => exact ⟨m, rest, rfl⟩
    rw [deep_check_mx_ans email net recs h1 h2 h3, hr]
    cases hs : net.smtp with
    | earlyFail e => rw [hs] at h5; simp [SmtpOutcome.primaryCode] at h5
    | midFail c e =>
      rw [hs] at h5
      simp only [SmtpOutcome.primaryCode, Option.some.injEq] at h5
      subst h5
      rw [afterDns_midFail net _ _ m rest 550 e hs, finalEval_550]
      exact ⟨rfl, rfl, rfl⟩
    | closeFail c f e =>
      rw [hs] at h5
      simp only [SmtpOutcome.primaryCode, Option.some.injEq] at h5
      subst h5
      rw [afterDns_closeFail net _ _ m rest 550 f e hs, finalEval_550]
      exact ⟨rfl, rfl, rfl⟩
    | clean c f =>
      rw [hs] at h5
      simp only [SmtpOutcome.primaryCode, Option.some.injEq] at h5
      subst h5
      rw [afterDns_clean net _ _ m rest 550 f hs, finalEval_550]
      exact ⟨rfl, rfl, rfl⟩
  · intro c role h
    refine ⟨risk_score_perm_fail c role h, ?_⟩
    rw [risk_score_perm_fail c role h]
    decide
  · intro role
    cases role <;> rfl

theorem claim_C2_witness :
    ((deep_check "bob@example.com".data
        ⟨.ans [(10, "mx.example.com")], true, .clean 550 0, false⟩).score = 0 ∧
      (deep_check "bob@example.com".data
        ⟨.ans [(10, "mx.example.com")], true, .clean 550 0, false⟩).status = "INVALID" ∧
      (deep_check "bob@example.com".data
        ⟨.ans [(10, "mx.example.com")], true, .clean 550 0, false⟩).reasons =
        ["User does not exist (Bounced)"]) ∧
    risk_score 551 true = 5 ∧
    risk_score 554 false = 50 :=
  ⟨claim_C2.1 "bob@example.com".data
      ⟨.ans [(10, "mx.example.com")], true, .clean 550 0, false⟩
      [(10, "mx.example.com")] (by decide) (by decide) rfl (by decide) rfl,
    (claim_C2.2.1 551 true (Or.inr (Or.inl rfl))).1,
    claim_C2.2.2 false⟩

/-! ## Claim C7 -/

/-- C7 counterexample: with no MX records but an address (A) record
present for the domain, runner.py returns INVALID with provider "N/A"
instead of treating the domain itself as the sole deliverable host — the
claimed A-record fallback does not exist in the code. -/
theorem claim_C7_counterexample :
    (Net.mk .noAnswer true (.clean 250 0) true).hasARecord = true ∧
      deep_check "john@example.com".data ⟨.noAnswer, true, .clean 250 0, true⟩ =
        ⟨0, ["Domain does not exist or has no MX records"], "INVALID", "N/A"⟩ := by
  constructor <;> decide

/-- C7 (amended): runner.py sorts the MX candidates by ascending
preference with ties broken by the exchange hostname (the tuple order of
Python `sorted`), but there is no fallback to the domain's address
record: when the MX query yields NoAnswer/NXDOMAIN the address is
immediately INVALID whatever A record exists, and pythonrun.py's
`mx_lookup` returns the exchanges in resolver answer order without
sorting. -/
theorem claim_C7 :
    (∀ recs : List (Nat × String),
        List.Sorted mxLe (List.insertionSort mxLe (cleanMx recs)) ∧
        (List.insertionSort mxLe (cleanMx recs)).Perm (cleanMx recs) ∧
        resolveMx recs = (List.insertionSort mxLe (cleanMx recs)).map
          (fun p => p.2)) ∧
    (∀ (email : List Char) (net : Net),
        email.contains '@' = true →
        (email.splitOn '@').length = 2 →
        net.mx = .noAnswer →
        deep_check email net =
          ⟨0, ["Domain does not exist or has no MX records"], "INVALID", "N/A"⟩) ∧
    (∀ (hosts : List String) (c : Option Nat), mx_lookup ⟨some hosts, c⟩ = hosts) := by
  refine ⟨?_, ?_, ?_⟩
  · intro recs
    exact ⟨List.sorted_insertionSort mxLe (cleanMx recs),
      List.perm_insertionSort mxLe (cleanMx recs), rfl⟩
  · intro email net h1 h2 hm
    exact deep_check_mx_noAnswer email net h1 h2 hm
  · intro hosts c
    rfl

theorem claim_C7_witness :
    (List.Sorted mxLe (List.insertionSort mxLe
        (cleanMx [(20, "b.example.com."), (10, "z.example.com"), (10, "a.example.com")])) ∧
      (List.insertionSort mxLe
        (cleanMx [(20, "b.example.com."), (10, "z.example.com"), (10, "a.example.com")])).Perm
        (cleanMx [(20, "b.example.com."), (10, "z.example.com"), (10, "a.example.com")]) ∧
      resolveMx [(20, "b.example.com."), (10, "z.example.com"), (10, "a.example.com")] =
        (List.insertionSort mxLe
          (cleanMx [(20, "b.example.com."), (10, "z.example.com"), (10, "a.example.com")])).map
          (fun p => p.2)) ∧
    deep_check "a@b.com".data ⟨.noAnswer, false, .earlyFail .timeout, true⟩ =
      ⟨0, ["Domain does not exist or has no MX records"], "INVALID", "N/A"⟩ :=
  ⟨claim_C7.1 [(20, "b.example.com."), (10, "z.example.com"), (10, "a.example.com")],
    claim_C7.2.1 "a@b.com".data ⟨.noAnswer, false, .earlyFail .timeout, true⟩
      (by decide) (by decide) rfl⟩

/-! ## Claim C8 -/

set_option maxRecDepth 4000 in
/-- C8 counterexample: a 255-character address (local part "john", a
250-character domain) is not classified syntactically invalid by
runner.py — it only takes the 40-point length penalty and, with positive
network signals, is dispatched VALID with score 95. -/
theorem claim_C8_counterexample :
    ("john@".data ++ List.replicate 246 'a' ++ ".com".data).length = 255 ∧
      deep_check ("john@".data ++ List.replicate 246 'a' ++ ".com".data)
          ⟨.ans [(10, "mx.example.com")], true, .clean 250 0, false⟩ =
        ⟨95, ["Total length exceeds RFC limit"], "VALID", "mx.example.com"⟩ := by
  constructor <;> decide

/-- C8 (amended): the 254/255 boundary exists in runner.py only as the
40-point penalty "Total length exceeds RFC limit": the penalty reason
fires exactly when the whole address exceeds 254 characters (so a
254-character address passes the length check), but an address over the
limit is not thereby classified syntactically invalid. -/
theorem claim_C8 (email user domain : List Char) :
    lenMsg ∈ (preScore email user domain).2 ↔ 254 < email.length :=
  lenMsg_mem_preScore email user domain

theorem claim_C8_witness :
    (lenMsg ∈ (preScore ("john@".data ++ List.replicate 246 'a' ++ ".com".data)
        "john".data (List.replicate 246 'a' ++ ".com".data)).2 ↔
      254 < ("john@".data ++ List.replicate 246 'a' ++ ".com".data).length) ∧
    (lenMsg ∈ (preScore "john@example.com".data "john".data "example.com".data).2 ↔
      254 < "john@example.com".data.length) :=
  ⟨claim_C8 ("john@".data ++ List.replicate 246 'a' ++ ".com".data)
      "john".data (List.replicate 246 'a' ++ ".com".data),
    claim_C8 "john@example.com".data "john".data "example.com".data⟩

/-! ## Claim C4 -/

/-- C4 counterexample: with a disposable domain and an illegal local
part, the pre-network penalties drive the raw score negative; the
catch-all scenario (random probe accepted, flag set, reason recorded)
and the otherwise-identical non-catch-all scenario then both clamp to a
final score of 0 — the catch-all score is not strictly lower. -/
theorem claim_C4_counterexample :
    (deep_check "a b@mailinator.com".data
        ⟨.ans [(10, "mx.m.com")], true, .clean 250 250, false⟩).score = 0 ∧
      (deep_check "a b@mailinator.com".data
        ⟨.ans [(10, "mx.m.com")], true, .clean 250 0, false⟩).score = 0 ∧
      catchMsg ∈ (deep_check "a b@mailinator.com".data
        ⟨.ans [(10, "mx.m.com")], true, .clean 250 250, false⟩).reasons := by
  refine ⟨?_, ?_, ?_⟩ <;> decide

/-- C4 (amended): when the random-address probe is accepted (reply 250)
in a completed session, the catch-all flag is set — visible as the
"Catch-all Domain (Accepts everything)" reason whenever the primary
reply is not the short-circuiting 550 — and a 40-point penalty applies
before clamping, so the final score is at most the otherwise-identical
non-catch-all scenario's, and strictly lower exactly when that
scenario's final clamped score is positive. -/
theorem claim_C4 (email : List Char) (net : Net) (recs : List (Nat × String))
    (c f : Nat)
    (h1 : email.contains '@' = true)
    (h2 : (email.splitOn '@').length = 2)
    (h3 : net.mx = .ans recs)
    (h4 : recs ≠ [])
    (hf : f ≠ 250) :
    (deep_check email { net with smtp := .clean c 250 }).score ≤
      (deep_check email { net with smtp := .clean c f }).score ∧
    ((deep_check email { net with smtp := .clean c 250 }).score <
        (deep_check email { net with smtp := .clean c f }).score ↔
      0 < (deep_check email { net with smtp := .clean c f }).score) ∧
    (c ≠ 550 →
      catchMsg ∈ (deep_check email { net with smtp := .clean c 250 }).reasons) := by
  obtain ⟨m, rest, hr⟩ : ∃ m rest, resolveMx recs = m :: rest := by
    cases hres : resolveMx recs with
    | nil => exact absurd hres (resolveMx_ne_nil recs h4)
    | cons m rest => exact ⟨m, rest, rfl⟩
  have hmx1 : ({ net with smtp := .clean c 250 } : Net).mx = .ans recs := h3
  have hmx2 : ({ net with smtp := .clean c f } : Net).mx = .ans recs := h3
  rw [deep_check_mx_ans email _ recs h1 h2 hmx1,
    deep_check_mx_ans email _ recs h1 h2 hmx2, hr,
    afterDns_clean _ _ _ m rest c 250 rfl,
    afterDns_clean _ _ _ m rest c f rfl]
  have hf2 : (f == 250) = false := by
    simpa using hf
  rw [hf2]
  have hb : txtScore { net with smtp := SmtpOutcome.clean c 250 }
      ((preScore email (userOf email) (domainOf email)).1 + 10) ≤ 115 := by
    have hp := preScore_fst_le email (userOf email) (domainOf email)
    unfold txtScore
    split_ifs <;> omega
  exact finalEval_catch_pair c _ _ _ _ _ hb

theorem claim_C4_witness :
    (deep_check "bob@example.com".data
        ⟨.ans [(10, "mx.example.com")], true, .clean 250 250, false⟩).score ≤
      (deep_check "bob@example.com".data
        ⟨.ans [(10, "mx.example.com")], true, .clean 250 0, false⟩).score ∧
    ((deep_check "bob@example.com".data
        ⟨.ans [(10, "mx.example.com")], true, .clean 250 250, false⟩).score <
        (deep_check "bob@example.com".data
          ⟨.ans [(10, "mx.example.com")], true, .clean 250 0, false⟩).score ↔
      0 < (deep_check "bob@example.com".data
        ⟨.ans [(10, "mx.example.com")], true, .clean 250 0, false⟩).score) ∧
    ((250 : Nat) ≠ 550 →
      catchMsg ∈ (deep_check "bob@example.com".data
        ⟨.ans [(10, "mx.example.com")], true, .clean 250 250, false⟩).reasons) :=
  claim_C4 "bob@example.com".data
    ⟨.ans [(10, "mx.example.com")], true, .clean 250 0, false⟩
    [(10, "mx.example.com")] 250 0 (by decide) (by decide) rfl (by decide)
    (by decide)

/-! ## Claim C9 -/

/-- C9 counterexample: the export's first row is the single-column header
"email", not "email,status,score", and the data rows carry only the
address. -/
theorem claim_C9_counterexample :
    download [⟨"john@a.com", "VALID", 95, "mx.a.com"⟩] "VALID" =
      "email\njohn@a.com\n".data ∧
    ((download [⟨"john@a.com", "VALID", 95, "mx.a.com"⟩] "VALID").splitOn
        '\n').headD [] = "email".data ∧
    "email".data ≠ "email,status,score".data := by
  refine ⟨?_, ?_, ?_⟩ <;> decide

/-- C9 (amended): the export contains exactly the Verdicts matching the
requested disposition, one row per matching verdict in table order, but
each row carries only the email address and the header row is the single
column `email` (no status, score or provider columns). -/
theorem claim_C9 (db : List VerifiedRow) (status : String)
    (h : ∀ r ∈ db, '\n' ∉ r.email.data) :
    (download db status).splitOn '\n' =
      "email".data ::
        ((db.filter (fun r => r.status == status)).map (fun r => r.email.data)
          ++ [[]]) := by
  rw [download_eq_intercalate]
  refine List.splitOn_intercalate _ '\n' ?_ (by simp)
  intro l hl
  simp only [List.mem_cons, List.mem_append, List.mem_map,
    List.mem_singleton] at hl
  rcases hl with rfl | ⟨r, hr, rfl⟩ | rfl | h0
  · decide
  · exact h r (List.mem_of_mem_filter hr)
  · simp
  · simp at h0

theorem claim_C9_witness :
    (download [⟨"john@a.com", "VALID", 95, "mx.a.com"⟩,
        ⟨"bad@b.com", "INVALID", 4, "N/A"⟩] "VALID").splitOn '\n' =
      "email".data ::
        (([(⟨"john@a.com", "VALID", 95, "mx.a.com"⟩ : VerifiedRow),
            ⟨"bad@b.com", "INVALID", 4, "N/A"⟩].filter
          (fun r => r.status == "VALID")).map (fun r => r.email.data) ++ [[]]) :=
  claim_C9 [⟨"john@a.com", "VALID", 95, "mx.a.com"⟩,
    ⟨"bad@b.com", "INVALID", 4, "N/A"⟩] "VALID" (by decide)

end Emailify
